import Mathlib

/-!
Verification of the adaptive message-delivery client and the session-scoped
chat transcript store of the vapi-demo front end.

The development shallowly embeds the relevant JavaScript:

* the transcript store and presenter glue
  (static/js chat functions: addChatMessageWithSource, the chat history cap,
  localStorage persistence, updateConversationContext,
  loadChatHistoryFromStorage),
* the voice transcript handler (voice-functions.js: handleVoiceTranscript and
  its processedTranscripts duplicate filter),
* the adaptive polling state machine (message-polling.js: markUserActivity,
  setVoiceActive, pausePolling, adjustPollingFrequency, checkForNewMessages,
  scheduleNextPoll, startMessagePolling, initializeMessagePolling).

JavaScript strings are modelled as Lean String; the few string algorithms the
code relies on (split, trim, parseInt) are re-implemented structurally over
the underlying character lists so that all statements are kernel-evaluable.
Timestamps are naturals counting milliseconds, matching Date.now().
-/

/-! ## Character-list string helpers

The source uses String.prototype.split, String.prototype.trim and parseInt.
These are modelled on List Char (the .data of a Lean String) by structural
recursion.
-/

/-- splitChar c l models l.join.split(c) in JavaScript (no limit): it cuts the
character list at every occurrence of c; a JS split with a numeric limit n is
the first n elements of this full split. -/
def splitChar (c : Char) : List Char → List (List Char)
  | [] => [[]]
  | x :: xs =>
    let r := splitChar c xs
    if x = c then [] :: r
    else
      match r with
      | y :: ys => (x :: y) :: ys
      | [] => [[x]]

/-- Whitespace recognised by trimming; the examples in this development only
use the plain space, so the slight differences to the full JS whitespace
class are irrelevant here. -/
def wsChar (c : Char) : Bool := c = ' ' || c = '\t' || c = '\n' || c = '\r'

/-- trimChars models String.prototype.trim on the character list: leading and
trailing whitespace removed. -/
def trimChars (l : List Char) : List Char :=
  ((l.dropWhile wsChar).reverse.dropWhile wsChar).reverse

/-- Value of a list of decimal digits, most significant first. -/
def digitsVal (l : List Char) : Nat :=
  l.foldl (fun a c => a * 10 + (c.toNat - 48)) 0

/-- jsParseInt models parseInt(s) for the strings occurring as timestamp
chunks of storage keys: the longest leading run of decimal digits is parsed;
none models NaN (no leading digit). Sign handling and leading whitespace are
not exercised by the keys this repository produces. -/
def jsParseInt (s : List Char) : Option Nat :=
  let ds := s.takeWhile Char.isDigit
  if ds = [] then none else some (digitsVal ds)

/-- takeLast n l is the suffix of the last n elements of l; it models the
JavaScript Array.prototype.slice(-n). -/
def takeLast {α : Type} (n : Nat) (l : List α) : List α :=
  (l.reverse.take n).reverse

/-! ## Data model: chat messages and the transcript store

From the chat functions file: a chat message records role, content, an
ISO-8601 timestamp string, and a provenance source tag. The store state holds
window.chatHistory and the localStorage copy written by
saveChatHistoryToStorage. The pushed field is instrumentation only: it
records, in order, every message the operations ever pushed, so that the
recency property of the cap can be stated; no source behaviour reads it.
-/

structure ChatMessage where
  role : String
  content : String
  timestamp : String
  source : String
deriving Repr, DecidableEq

structure StoreState where
  history : List ChatMessage
  persisted : List ChatMessage
  pushed : List ChatMessage
deriving Repr, DecidableEq

def initStore : StoreState := { history := [], persisted := [], pushed := [] }

/-- addChatMessageWithSource, from the chat functions file. The
containerPresent flag models the document.getElementById lookup of the chat
container: when it is missing the function returns before touching the
history. On the normal path the message is pushed, the history is capped at
30 entries by slice(-30), and the capped history is persisted
(saveChatHistoryToStorage). DOM rendering, updateConversationContext and the
deferred scrolling have no effect on the store and are not modelled. -/
def addChatMessageWithSource (containerPresent : Bool)
    (ts message sender source : String) (st : StoreState) : StoreState :=
  if containerPresent = false then st
  else
    let m : ChatMessage :=
      { role := if sender = "user" then "user" else "assistant"
        content := message, timestamp := ts, source := source }
    let h1 := st.history ++ [m]
    let h2 := if h1.length > 30 then takeLast 30 h1 else h1
    { history := h2, persisted := h2, pushed := st.pushed ++ [m] }

/-- Entry stored in window.processedTranscripts for a transcript message:
the template string role-transcript.trim(), tagged with the time it was
added (the 10 s cleanup timeout is keyed on this time). -/
def transcriptKey (role transcript : String) : List Char :=
  role.data ++ '-' :: trimChars transcript.data

/-- The duplicate test applied to one stored id, from handleVoiceTranscript:
the source destructures the dash split of the id with limit 2, so the first
two dash-separated segments of the stored id are compared against the
incoming role and trimmed transcript. -/
def dedupMatch (role transcript : String) (id : List Char) : Bool :=
  match splitChar '-' id with
  | r :: c :: _ => r == role.data && c == trimChars transcript.data
  | _ => false

/-- The recentlyProcessed check of handleVoiceTranscript: some stored id
matches the incoming role and trimmed transcript. -/
def recentlyProcessed (role transcript : String)
    (s : List (Nat × List Char)) : Bool :=
  s.any (fun e => dedupMatch role transcript e.2)

/-- Effect of the 10 s cleanup timeouts on the processed set: an entry added
at time t is deleted at t + 10000, so at time now exactly the entries with
now < t + 10000 remain. -/
def pruneProcessed (now : Nat) (s : List (Nat × List Char)) :
    List (Nat × List Char) :=
  s.filter (fun e => now < e.1 + 10000)

/-- handleVoiceTranscript, from voice-functions.js, for a final transcript
message. It validates the message, runs the duplicate check against
window.processedTranscripts (with the expiry timeouts that have fired by
now already applied), records the new id, and for a non-blank transcript
pushes a voice-tagged chat message directly onto window.chatHistory (saving
it uncapped), then calls addChatMessageWithSource — which pushes a second
copy, caps the history and persists it. ts1 and ts2 are the two
new Date().toISOString() values taken at the two push sites. When
addChatAvailable is false the code falls back to addChatMessage, which is
addChatMessageWithSource with source chat. -/
def handleVoiceTranscript (containerPresent addChatAvailable : Bool)
    (now : Nat) (ts1 ts2 role transcript : String)
    (s : List (Nat × List Char)) (st : StoreState) :
    StoreState × List (Nat × List Char) :=
  if transcript = "" ∨ role = "" then (st, s)
  else
    let cur := pruneProcessed now s
    if recentlyProcessed role transcript cur = true then (st, cur)
    else
      let cur2 := cur ++ [(now, transcriptKey role transcript)]
      if trimChars transcript.data = [] then (st, cur2)
      else
        let sender := if role = "user" then "user" else "assistant"
        let m1 : ChatMessage :=
          { role := sender, content := transcript, timestamp := ts1
            source := "voice" }
        let st1 : StoreState :=
          { history := st.history ++ [m1], persisted := st.history ++ [m1]
            pushed := st.pushed ++ [m1] }
        let st2 :=
          if addChatAvailable = true then
            addChatMessageWithSource containerPresent ts2 transcript sender
              ("voice") st1
          else
            addChatMessageWithSource containerPresent ts2 transcript sender
              ("chat") st1
        (st2, cur2)

/-- displayNewMessage, from message-polling.js: extracts content, role and
source with the defaults of the source ("" models a missing field, which is
falsy in JS exactly like the empty string), then hands the message to
addChatMessageWithSource when it is available. It consults no duplicate
filter. The fallback branch renders raw DOM only and never touches
window.chatHistory, so it leaves the store unchanged. -/
def displayNewMessage (containerPresent addChatAvailable : Bool)
    (ts content role source : String) (st : StoreState) : StoreState :=
  let c := if content = "" then "Keine Nachricht" else content
  let r := if role = "" then "assistant" else role
  let src := if source = "" then "voice-function" else source
  if addChatAvailable = true then
    addChatMessageWithSource containerPresent ts c r src st
  else st

/-- One complete append operation against the transcript store: either a chat
append through addChatMessageWithSource or a voice transcript through
handleVoiceTranscript. -/
inductive TranscriptOp where
  | chat (ts message sender source : String)
  | voice (now : Nat) (ts1 ts2 role transcript : String)

/-- Operations run on the page, where the chat container exists and
addChatMessageWithSource is exported on window. -/
def applyTranscriptOp (op : TranscriptOp)
    (acc : StoreState × List (Nat × List Char)) :
    StoreState × List (Nat × List Char) :=
  match op with
  | .chat ts m sd src => (addChatMessageWithSource true ts m sd src acc.1, acc.2)
  | .voice now t1 t2 r tr => handleVoiceTranscript true true now t1 t2 r tr acc.2 acc.1

def runTranscriptOps (ops : List TranscriptOp) :
    StoreState × List (Nat × List Char) :=
  ops.foldl (fun acc op => applyTranscriptOp op acc) (initStore, [])

/-! ## Conversation context rendering

updateConversationContext (chat functions) and startVoiceCall
(voice-functions.js) both render the last 30 history entries as
Role: content lines joined by newline, substituting a fixed German
placeholder for the empty string because VAPI does not transmit empty
variable values.
-/

/-- One rendered line: User or Assistant according to the message role,
then a colon and space, then the content. -/
def contextLine (m : ChatMessage) : String :=
  (if m.role = "user" then "User" else "Assistant") ++ ": " ++ m.content

/-- The newline join of a list of rendered lines. -/
def joinLines : List String → String
  | [] => ""
  | [s] => s
  | s :: rest => s ++ "\n" ++ joinLines rest

/-- conversationContext, as computed identically by updateConversationContext
and startVoiceCall: (chatHistory || []).slice(-30) mapped to lines, joined,
with the falsy empty string replaced by the placeholder. -/
def conversationContext (history : List ChatMessage) : String :=
  let ctx := joinLines ((takeLast 30 history).map contextLine)
  if ctx = "" then "Keine vorherigen Nachrichten" else ctx

/-! ## localStorage model and history loading

localStorage is modelled as an association list from key to stored transcript
(values are kept as message lists rather than JSON text) together with the
time the entry was written. setItem overwrites, but the code only writes the
current-session key after establishing it is absent, so appending is
faithful there. -/

abbrev Storage : Type := List (String × List ChatMessage × Nat)

/-- localStorage.getItem on the modelled store (first matching key). -/
def storageLookup (storage : Storage) (key : String) : Option (List ChatMessage) :=
  match storage.find? (fun e => e.1 == key) with
  | some e => some e.2.1
  | none => none

/-- The timestamp a key is sorted by in loadChatHistoryFromStorage: parseInt
of the second underscore-separated chunk of the key, where a missing or
empty chunk falls back to the zero digit. none models NaN, which makes the
JS sort comparator inconsistent and the resulting order engine-defined; all
theorems below therefore restrict to keys whose timestamp chunk parses. -/
def keyTimestamp (key : String) : Option Nat :=
  match splitChar '_' key.data with
  | _ :: t :: _ => if t = [] then some 0 else jsParseInt t
  | _ => some 0

/-- Head of the chatHistory keys sorted by descending embedded timestamp
(sortedKeys[0] in loadChatHistoryFromStorage). When every key parses, the JS
comparator is total and consistent, the sort is well defined, and this fold
computes its head: the key with the greatest timestamp, ties kept in
original order like the stable JS sort. When some key does not parse the JS
comparator returns NaN and the sort order is engine-defined; the getD 0
default merely totalises the fold there, and the theorem concluding a
max-selection carries an explicit hypothesis that every chatHistory key
parses, so that default never influences a proved statement. -/
def latestChatKey : List String → Option String
  | [] => none
  | k :: ks =>
    match latestChatKey ks with
    | none => some k
    | some b =>
      if (keyTimestamp b).getD 0 ≤ (keyTimestamp k).getD 0 then some k else some b

/-- The chatHistory_-keyed entries of the store, in storage order. -/
def chatKeys (storage : Storage) : List String :=
  (storage.map (fun e => e.1)).filter
    (fun k => ("chatHistory_").data.isPrefixOf k.data)

/-- loadChatHistoryFromStorage, from the chat functions file: the transcript
under the current session key if present; otherwise the chatHistory entry
with the most recent session-id timestamp is adopted and also copied to the
current session key (written at time now). Parse failures and the UI
restoration are outside the store model. -/
def loadChatHistoryFromStorage (currentSid : String) (now : Nat)
    (storage : Storage) : List ChatMessage × Storage :=
  match storageLookup storage ("chatHistory_" ++ currentSid) with
  | some v => (v, storage)
  | none =>
    match latestChatKey (chatKeys storage) with
    | none => ([], storage)
    | some lk =>
      match storageLookup storage lk with
      | some v => (v, storage ++ [("chatHistory_" ++ currentSid, v, now)])
      | none => ([], storage)

/-- Modelled from the spec: the most recently written transcript from any
prior session — the chatHistory entry with the greatest write time. The
source never consults write times, so this definition exists only to compare
the implemented fallback against the specified one. -/
def specMostRecentlyWritten (storage : Storage) : Option (List ChatMessage) :=
  let entries := storage.filter
    (fun e => ("chatHistory_").data.isPrefixOf e.1.data)
  match entries.foldl
    (fun best e =>
      match best with
      | none => some e
      | some b => if b.2.2 < e.2.2 then some e else some b) none with
  | some e => some e.2.1
  | none => none

/-! ## Adaptive polling state machine

The module-level variables of message-polling.js form the state. The timer
handle messagePollingInterval is abstracted to the boolean timerSet (a poll
is scheduled); lastMessageCount and the SSE reconnect bookkeeping play no
role in the claims and are omitted. Time is an explicit now argument to
every transition that reads Date.now(). Date.now() never precedes
lastActivity in a real run; Nat subtraction truncates at zero exactly where
the JS comparisons on a negative difference would take the same branch, so
no ordering side condition is needed.
-/

structure PollState where
  lastActivity : Nat
  interval : Nat
  emptyPolls : Nat
  voiceActive : Bool
  chatActive : Bool
  paused : Bool
  timerSet : Bool
  sessionId : Option String
deriving Repr, DecidableEq

/-- Module state right after the script loads: currentPollingInterval 15000,
no activity flags, not paused, no timer, no session. lastActivity is the
load time t0. -/
def initPollState (t0 : Nat) : PollState :=
  { lastActivity := t0, interval := 15000, emptyPolls := 0
    voiceActive := false, chatActive := false
    paused := false, timerSet := false, sessionId := none }

/-- stopMessagePolling: clears the pending timer if any. -/
def stopMessagePolling (s : PollState) : PollState :=
  { s with timerSet := false }

/-- scheduleNextPoll: arms the (single) poll timer with the current
interval; an existing timer is replaced. -/
def scheduleNextPoll (s : PollState) : PollState :=
  { s with timerSet := true }

/-- pausePolling: only when not already paused and a timer is pending, the
timer is cleared and the machine is marked paused. -/
def pausePolling (s : PollState) : PollState :=
  if s.paused = false ∧ s.timerSet = true then
    { s with paused := true, timerSet := false }
  else s

/-- resumePolling: leaves the paused state and reschedules. -/
def resumePolling (s : PollState) : PollState :=
  if s.paused = true then
    { s with paused := false, timerSet := true }
  else s

/-- markUserActivity: records the activity time, resets the empty-poll
counter, flags chat activity, resumes from pause, and forces the interval
to 8000 ms. The 5-minute timeout it arms to clear the chat flag is the
separate chatTimeout event below. -/
def markUserActivity (now : Nat) (s : PollState) : PollState :=
  if s.paused = true then
    { s with
      lastActivity := now
      emptyPolls := 0
      chatActive := true
      paused := false
      timerSet := true
      interval := 8000 }
  else
    { s with
      lastActivity := now
      emptyPolls := 0
      chatActive := true
      interval := 8000 }

/-- setVoiceActive: tracks the voice flag; true additionally records
activity, resets the counter and resumes from pause. -/
def setVoiceActive (now : Nat) (active : Bool) (s : PollState) : PollState :=
  if active = true then
    if s.paused = true then
      { s with
        voiceActive := true
        lastActivity := now
        emptyPolls := 0
        paused := false
        timerSet := true }
    else
      { s with voiceActive := true, lastActivity := now, emptyPolls := 0 }
  else { s with voiceActive := false }

/-- The activity-tier interval of adjustPollingFrequency: 5000 ms while a
voice call or chat activity is flagged, else 8000/10000/15000 ms by time
since the last activity. -/
def tierInterval (now : Nat) (s : PollState) : Nat :=
  if s.voiceActive = true ∨ s.chatActive = true then 5000
  else if now - s.lastActivity < 120000 then 8000
  else if now - s.lastActivity < 600000 then 10000
  else 15000

/-- adjustPollingFrequency: pauses when completely idle (no flags, more than
600 s since activity, more than 5 consecutive empty polls); otherwise picks
the tier interval and, after more than 25 empty polls, dampens it to
min(interval * 1.2, 20000). For the four tier values the IEEE-754 product
with 1.2 rounds to the exact integer 6/5 multiple (6000, 9600, 12000,
18000), so the dampening is modelled exactly as interval * 6 / 5 on Nat. -/
def adjustPollingFrequency (now : Nat) (s : PollState) : PollState :=
  if s.voiceActive = false ∧ s.chatActive = false ∧
      600000 < now - s.lastActivity ∧ 5 < s.emptyPolls then
    pausePolling s
  else if 25 < s.emptyPolls then
    { s with interval := min (tierInterval now s * 6 / 5) 20000 }
  else
    { s with interval := tierInterval now s }

/-- Outcome of one completed checkForNewMessages network round trip. -/
inductive PollOutcome where
  | nonEmpty
  | empty
  | badPayload
  | failed
deriving Repr, DecidableEq

/-- Completion of checkForNewMessages. Without a session id the function
returned at entry and nothing changed. Otherwise: new messages reset the
empty-poll counter, an empty poll increments it, a fetch/JSON failure is
caught and adds 2; except for a response without success/messages (no
counter change, no adjustment), adjustPollingFrequency then runs; finally
the next poll is scheduled unless the machine is (now) paused. Message
display is the displayNewMessage path of the store model. -/
def checkForNewMessagesComplete (now : Nat) (o : PollOutcome) (s : PollState) :
    PollState :=
  if s.sessionId = none then s
  else
    match o with
    | .nonEmpty =>
      if (adjustPollingFrequency now { s with emptyPolls := 0 }).paused = true then
        adjustPollingFrequency now { s with emptyPolls := 0 }
      else
        scheduleNextPoll (adjustPollingFrequency now { s with emptyPolls := 0 })
    | .empty =>
      if (adjustPollingFrequency now { s with emptyPolls := s.emptyPolls + 1 }).paused = true then
        adjustPollingFrequency now { s with emptyPolls := s.emptyPolls + 1 }
      else
        scheduleNextPoll (adjustPollingFrequency now { s with emptyPolls := s.emptyPolls + 1 })
    | .badPayload =>
      if s.paused = true then s else scheduleNextPoll s
    | .failed =>
      if (adjustPollingFrequency now { s with emptyPolls := s.emptyPolls + 2 }).paused = true then
        adjustPollingFrequency now { s with emptyPolls := s.emptyPolls + 2 }
      else
        scheduleNextPoll (adjustPollingFrequency now { s with emptyPolls := s.emptyPolls + 2 })

/-- startMessagePolling: logs, stops any pending timer, and returns — the
entire initialisation tail (recording the session id, resetting the
counters, scheduling, the initial check) sits after an unconditional
return and is dead code. -/
def startMessagePolling (sessionId : String) (s : PollState) : PollState :=
  stopMessagePolling s

/-- initializeMessagePolling: when no session id is recorded yet, adopts the
one from VAPI_CONFIG.browserSessionId or the legacy BROWSER_SESSION_ID
(cfg, the first of the two that exists); the calls that would start polling
are commented out. Returns whether initialisation succeeded. -/
def initializeMessagePolling (cfg : Option String) (s : PollState) :
    PollState × Bool :=
  if s.sessionId ≠ none then (s, true)
  else
    match cfg with
    | some sid => ({ s with sessionId := some sid }, true)
    | none => (s, false)

/-- startMessagePollingWhenReady: adopts the configured session id when none
is recorded; the startMessagePolling call is commented out. -/
def startMessagePollingWhenReady (cfg : Option String) (s : PollState) :
    PollState :=
  match cfg with
  | some sid => if s.sessionId = none then { s with sessionId := some sid } else s
  | none => s

/-- The discrete events that drive the module state, each carrying the
Date.now() it observes. -/
inductive PollEvent where
  | userActivity (now : Nat)
  | voiceSet (now : Nat) (active : Bool)
  | chatTimeout
  | pollComplete (now : Nat) (o : PollOutcome)
  | stopPolling
  | startPolling (sid : String)
  | initPolling (cfg : Option String)
  | whenReady (cfg : Option String)

def stepEvent (e : PollEvent) (s : PollState) : PollState :=
  match e with
  | .userActivity now => markUserActivity now s
  | .voiceSet now b => setVoiceActive now b s
  | .chatTimeout => { s with chatActive := false }
  | .pollComplete now o => checkForNewMessagesComplete now o s
  | .stopPolling => stopMessagePolling s
  | .startPolling sid => startMessagePolling sid s
  | .initPolling cfg => (initializeMessagePolling cfg s).1
  | .whenReady cfg => startMessagePollingWhenReady cfg s

/-- A run of the module from page load at t0 through a sequence of events. -/
def runPoll (t0 : Nat) (evs : List PollEvent) : PollState :=
  evs.foldl (fun s e => stepEvent e s) (initPollState t0)

/-- Events that signal activity: markUserActivity and setVoiceActive(true). -/
def isActivitySignal : PollEvent → Bool
  | .userActivity _ => true
  | .voiceSet _ true => true
  | _ => false

/-- Events that are the completion of a poll round trip. -/
def isPollCompletion : PollEvent → Bool
  | .pollComplete _ _ => true
  | _ => false

/-! ## Invariants used in the theorems -/

/-- The transcript-store invariant: window.chatHistory equals the last 30
messages ever pushed, and the persisted copy equals the history. -/
def storeInv (st : StoreState) : Prop :=
  st.history = takeLast 30 st.pushed ∧ st.persisted = st.history

/-- The claimed bounds on the adaptive interval. -/
def intervalInv (s : PollState) : Prop :=
  5000 ≤ s.interval ∧ s.interval ≤ 20000

/-! ## List lemmas for the 30-entry cap -/

theorem takeLast_length_le {α : Type} (n : Nat) (l : List α) :
    (takeLast n l).length ≤ n := by
  simp [takeLast]

theorem takeLast_of_length_le {α : Type} {n : Nat} {l : List α}
    (h : l.length ≤ n) : takeLast n l = l := by
  have hr : l.reverse.length ≤ n := by simpa using h
  simp [takeLast, List.take_of_length_le hr]

theorem takeLast_append_takeLast {α : Type} (n : Nat) (xs ys : List α) :
    takeLast n (takeLast n xs ++ ys) = takeLast n (xs ++ ys) := by
  simp only [takeLast, List.reverse_append, List.reverse_reverse]
  rw [List.take_append_eq_append_take, List.take_append_eq_append_take,
    List.take_take]
  have hmin : min (n - ys.reverse.length) n = n - ys.reverse.length :=
    Nat.min_eq_left (Nat.sub_le n ys.reverse.length)
  rw [hmin]

theorem takeLast_append_two {α : Type} (xs : List α) (a b : α) :
    takeLast 30 (xs ++ [a, b]) = takeLast 28 xs ++ [a, b] := by
  simp only [takeLast, List.reverse_append]
  have h : [a, b].reverse ++ xs.reverse = b :: a :: xs.reverse := rfl
  have h30 : (30 : Nat) = 28 + 1 + 1 := rfl
  rw [h, h30, List.take_succ_cons, List.take_succ_cons, List.reverse_cons,
    List.reverse_cons]
  simp

theorem cap_eq_takeLast (l : List ChatMessage) :
    (if l.length > 30 then takeLast 30 l else l) = takeLast 30 l := by
  split
  · rfl
  · rename_i hle
    rw [takeLast_of_length_le (by omega)]

/-! ## Branch characterisations of the store operations -/

theorem addChat_true_eq (ts message sender source : String) (st : StoreState) :
    addChatMessageWithSource true ts message sender source st =
      { history := takeLast 30 (st.history ++
          [{ role := if sender = "user" then "user" else "assistant",
             content := message, timestamp := ts, source := source }])
        persisted := takeLast 30 (st.history ++
          [{ role := if sender = "user" then "user" else "assistant",
             content := message, timestamp := ts, source := source }])
        pushed := st.pushed ++
          [{ role := if sender = "user" then "user" else "assistant",
             content := message, timestamp := ts, source := source }] } := by
  simp only [addChatMessageWithSource, cap_eq_takeLast]
  rfl

theorem addChat_storeInv (cp : Bool) (ts message sender source : String)
    (st : StoreState) (h : storeInv st) :
    storeInv (addChatMessageWithSource cp ts message sender source st) := by
  cases cp
  · exact h
  · obtain ⟨hh, hp⟩ := h
    rw [addChat_true_eq]
    refine ⟨?_, rfl⟩
    rw [hh, takeLast_append_takeLast]

theorem hVT_invalid (cp ca : Bool) (now : Nat) (ts1 ts2 role transcript : String)
    (sset : List (Nat × List Char)) (st : StoreState)
    (h : transcript = "" ∨ role = "") :
    handleVoiceTranscript cp ca now ts1 ts2 role transcript sset st = (st, sset) := by
  unfold handleVoiceTranscript
  rw [if_pos h]

theorem hVT_drop (cp ca : Bool) (now : Nat) (ts1 ts2 role transcript : String)
    (sset : List (Nat × List Char)) (st : StoreState)
    (htr : transcript ≠ "") (hrole : role ≠ "")
    (hdup : recentlyProcessed role transcript (pruneProcessed now sset) = true) :
    handleVoiceTranscript cp ca now ts1 ts2 role transcript sset st =
      (st, pruneProcessed now sset) := by
  unfold handleVoiceTranscript
  rw [if_neg (by simp [htr, hrole])]
  simp only [hdup, if_pos]

theorem hVT_blank (cp ca : Bool) (now : Nat) (ts1 ts2 role transcript : String)
    (sset : List (Nat × List Char)) (st : StoreState)
    (htr : transcript ≠ "") (hrole : role ≠ "")
    (hdup : recentlyProcessed role transcript (pruneProcessed now sset) = false)
    (hblank : trimChars transcript.data = []) :
    handleVoiceTranscript cp ca now ts1 ts2 role transcript sset st =
      (st, pruneProcessed now sset ++ [(now, transcriptKey role transcript)]) := by
  unfold handleVoiceTranscript
  rw [if_neg (by simp [htr, hrole])]
  simp only [hdup, hblank, if_pos]
  simp

theorem hVT_accept (cp : Bool) (now : Nat) (ts1 ts2 role transcript : String)
    (sset : List (Nat × List Char)) (st : StoreState)
    (htr : transcript ≠ "") (hrole : role ≠ "")
    (hdup : recentlyProcessed role transcript (pruneProcessed now sset) = false)
    (htrim : trimChars transcript.data ≠ []) :
    handleVoiceTranscript cp true now ts1 ts2 role transcript sset st =
      (addChatMessageWithSource cp ts2 transcript
          (if role = "user" then "user" else "assistant") ("voice")
          { history := st.history ++
              [{ role := if role = "user" then "user" else "assistant",
                 content := transcript, timestamp := ts1, source := "voice" }]
            persisted := st.history ++
              [{ role := if role = "user" then "user" else "assistant",
                 content := transcript, timestamp := ts1, source := "voice" }]
            pushed := st.pushed ++
              [{ role := if role = "user" then "user" else "assistant",
                 content := transcript, timestamp := ts1, source := "voice" }] },
       pruneProcessed now sset ++ [(now, transcriptKey role transcript)]) := by
  unfold handleVoiceTranscript
  rw [if_neg (by simp [htr, hrole])]
  simp only [hdup, htrim, if_pos]
  simp [htrim]

theorem hVT_storeInv (now : Nat) (ts1 ts2 role transcript : String)
    (sset : List (Nat × List Char)) (st : StoreState) (h : storeInv st) :
    storeInv (handleVoiceTranscript true true now ts1 ts2 role transcript sset st).1 := by
  by_cases h1 : transcript = "" ∨ role = ""
  · rw [hVT_invalid true true now ts1 ts2 role transcript sset st h1]
    exact h
  · have htr : transcript ≠ "" := fun he => h1 (Or.inl he)
    have hrole : role ≠ "" := fun he => h1 (Or.inr he)
    by_cases h2 : recentlyProcessed role transcript (pruneProcessed now sset) = true
    · rw [hVT_drop true true now ts1 ts2 role transcript sset st htr hrole h2]
      exact h
    · have h2f : recentlyProcessed role transcript (pruneProcessed now sset) = false := by
        simpa using h2
      by_cases h3 : trimChars transcript.data = []
      · rw [hVT_blank true true now ts1 ts2 role transcript sset st htr hrole h2f h3]
        exact h
      · rw [hVT_accept true now ts1 ts2 role transcript sset st htr hrole h2f h3]
        obtain ⟨hh, hp⟩ := h
        rw [addChat_true_eq]
        refine ⟨?_, rfl⟩
        dsimp only
        rw [hh, List.append_assoc, takeLast_append_takeLast,
          ← List.append_assoc]

theorem runTranscriptOps_storeInv (ops : List TranscriptOp) :
    storeInv (runTranscriptOps ops).1 := by
  have key : ∀ (l : List TranscriptOp) (acc : StoreState × List (Nat × List Char)),
      storeInv acc.1 →
      storeInv (l.foldl (fun acc op => applyTranscriptOp op acc) acc).1 := by
    intro l
    induction l with
    | nil => intro acc h; exact h
    | cons op rest ih =>
      intro acc h
      apply ih
      cases op with
      | chat ts m sd src => exact addChat_storeInv true ts m sd src acc.1 h
      | voice now t1 t2 r tr => exact hVT_storeInv now t1 t2 r tr acc.2 acc.1 h
  exact key ops (initStore, []) ⟨rfl, rfl⟩

/-- C2: after any sequence of complete append operations — chat messages via
addChatMessageWithSource, voice transcripts via handleVoiceTranscript, on
the page where the chat container and the export exist — the persisted
transcript holds at most 30 entries, namely exactly the most recently
pushed messages in their original insertion order (the last-30 suffix of
the instrumented push log). -/
theorem c2_transcript_cap (ops : List TranscriptOp) :
    (runTranscriptOps ops).1.persisted.length ≤ 30 ∧
    (runTranscriptOps ops).1.persisted =
      takeLast 30 (runTranscriptOps ops).1.pushed := by
  obtain ⟨hh, hp⟩ := runTranscriptOps_storeInv ops
  refine ⟨?_, by rw [hp, hh]⟩
  rw [hp, hh]
  exact takeLast_length_le 30 _

/-- C10: an accepted, non-blank, non-duplicate voice transcript appends two
entries with identical role and content to the persisted chat history: the
direct push of handleVoiceTranscript and the push of the
addChatMessageWithSource call it then makes. -/
theorem c10_voice_double_append (st : StoreState)
    (sset : List (Nat × List Char)) (now : Nat)
    (ts1 ts2 role transcript : String)
    (htrim : trimChars transcript.data ≠ [])
    (hrole : role ≠ "")
    (hdup : recentlyProcessed role transcript (pruneProcessed now sset) = false) :
    ∃ pre : List ChatMessage,
      (handleVoiceTranscript true true now ts1 ts2 role transcript sset st).1.persisted =
        pre ++
          [{ role := if role = "user" then "user" else "assistant",
             content := transcript, timestamp := ts1, source := "voice" },
           { role := if role = "user" then "user" else "assistant",
             content := transcript, timestamp := ts2, source := "voice" }] := by
  have htr : transcript ≠ "" := by
    intro he
    apply htrim
    rw [he]
    rfl
  rw [hVT_accept true now ts1 ts2 role transcript sset st htr hrole hdup htrim]
  rw [addChat_true_eq]
  dsimp only
  refine ⟨takeLast 28 st.history, ?_⟩
  have hrole2 :
      (if (if role = "user" then "user" else "assistant") = "user"
        then "user" else "assistant") =
      (if role = "user" then "user" else "assistant") := by
    by_cases hu : role = "user" <;> simp [hu]
  rw [hrole2, List.append_assoc]
  exact takeLast_append_two st.history _ _

/-! ## Behaviour of the dash-split duplicate check -/

theorem splitChar_no_sep (c : Char) (l : List Char) (h : ∀ x ∈ l, x ≠ c) :
    splitChar c l = [l] := by
  induction l with
  | nil => rfl
  | cons a as ih =>
    have ha : a ≠ c := h a (by simp)
    have ih2 := ih (fun x hx => h x (by simp [hx]))
    simp [splitChar, ha, ih2]

theorem splitChar_sep (c : Char) (A B : List Char) (hA : ∀ x ∈ A, x ≠ c) :
    splitChar c (A ++ c :: B) = A :: splitChar c B := by
  induction A with
  | nil => simp [splitChar]
  | cons a as ih =>
    have ha : a ≠ c := hA a (by simp)
    have ih2 := ih (fun x hx => hA x (by simp [hx]))
    simp only [List.cons_append, splitChar, ih2]
    rw [if_neg ha]
    rw [List.append_eq, ih2]

theorem dedupMatch_self (role transcript : String)
    (hrole_dash : ∀ c ∈ role.data, c ≠ '-')
    (hcontent_dash : ∀ c ∈ trimChars transcript.data, c ≠ '-') :
    dedupMatch role transcript (transcriptKey role transcript) = true := by
  unfold dedupMatch transcriptKey
  rw [splitChar_sep '-' role.data (trimChars transcript.data) hrole_dash]
  rw [splitChar_no_sep '-' (trimChars transcript.data) hcontent_dash]
  simp

/-- C3 counterexample: delivering the identical (role, content) pair twice
within 10 s does not leave exactly one transcript entry. Via the voice path
the first delivery already appends two entries (the second is dropped, the
history holds 2); via displayNewMessage, which performs no duplicate check
at all, each delivery appends (the history holds 2 as well). -/
theorem c3_counterexample :
    ((handleVoiceTranscript true true 5000 ("t3") ("t4") ("user") ("hallo")
        (handleVoiceTranscript true true 0 ("t1") ("t2") ("user") ("hallo")
          [] initStore).2
        (handleVoiceTranscript true true 0 ("t1") ("t2") ("user") ("hallo")
          [] initStore).1).1.history.length = 2) ∧
    ((displayNewMessage true true ("t6") ("hallo") ("user") ("chat")
        (displayNewMessage true true ("t5") ("hallo") ("user") ("chat")
          initStore)).history.length = 2) := by
  decide

/-- C3 amended: only the voice-transcript path deduplicates. For a pair
whose role and trimmed content are dash-free (the limit-2 dash split of the
comparison truncates at dashes), a second handleVoiceTranscript delivery inside the
10 s window is detected and dropped: it changes neither the store nor the
processed set. -/
theorem c3_voice_dedup (st : StoreState) (now1 now2 : Nat)
    (ts1 ts2 ts3 ts4 role transcript : String)
    (hrole_dash : ∀ c ∈ role.data, c ≠ '-')
    (hcontent_dash : ∀ c ∈ trimChars transcript.data, c ≠ '-')
    (htrim : trimChars transcript.data ≠ [])
    (hrole : role ≠ "")
    (hwin : now2 < now1 + 10000) :
    handleVoiceTranscript true true now2 ts3 ts4 role transcript
        (handleVoiceTranscript true true now1 ts1 ts2 role transcript [] st).2
        (handleVoiceTranscript true true now1 ts1 ts2 role transcript [] st).1 =
      ((handleVoiceTranscript true true now1 ts1 ts2 role transcript [] st).1,
       (handleVoiceTranscript true true now1 ts1 ts2 role transcript [] st).2) := by
  have htr : transcript ≠ "" := by
    intro he
    apply htrim
    rw [he]
    rfl
  have hdup0 : recentlyProcessed role transcript (pruneProcessed now1 []) = false := rfl
  have hfst := hVT_accept true now1 ts1 ts2 role transcript [] st htr hrole hdup0 htrim
  have hset : (handleVoiceTranscript true true now1 ts1 ts2 role transcript [] st).2 =
      [(now1, transcriptKey role transcript)] := by
    rw [hfst]
    rfl
  have hprune : pruneProcessed now2 [(now1, transcriptKey role transcript)] =
      [(now1, transcriptKey role transcript)] := by
    simp [pruneProcessed, hwin]
  have hrp : recentlyProcessed role transcript
      (pruneProcessed now2
        (handleVoiceTranscript true true now1 ts1 ts2 role transcript [] st).2) = true := by
    rw [hset, hprune]
    simp [recentlyProcessed,
      dedupMatch_self role transcript hrole_dash hcontent_dash]
  rw [hVT_drop true true now2 ts3 ts4 role transcript _ _ htr hrole hrp]
  rw [hset, hprune]

/-- Witness for the amended C3 theorem at concrete inputs. -/
theorem c3_voice_dedup_witness :
    handleVoiceTranscript true true 4000 ("t3") ("t4") ("user") ("hi")
        (handleVoiceTranscript true true 0 ("t1") ("t2") ("user") ("hi")
          [] initStore).2
        (handleVoiceTranscript true true 0 ("t1") ("t2") ("user") ("hi")
          [] initStore).1 =
      ((handleVoiceTranscript true true 0 ("t1") ("t2") ("user") ("hi")
          [] initStore).1,
       (handleVoiceTranscript true true 0 ("t1") ("t2") ("user") ("hi")
          [] initStore).2) := by
  exact c3_voice_dedup initStore 0 4000 ("t1") ("t2") ("t3") ("t4")
    ("user") ("hi") (by decide) (by decide) (by decide) (by decide) (by decide)

/-- Witness for the C10 theorem at concrete inputs. -/
theorem c10_voice_double_append_witness :
    ∃ pre : List ChatMessage,
      (handleVoiceTranscript true true 0 ("u1") ("u2") ("user") ("servus")
          [] initStore).1.persisted =
        pre ++
          [{ role := if ("user" : String) = "user" then "user" else "assistant",
             content := "servus", timestamp := "u1", source := "voice" },
           { role := if ("user" : String) = "user" then "user" else "assistant",
             content := "servus", timestamp := "u2", source := "voice" }] := by
  exact c10_voice_double_append initStore [] 0 ("u1") ("u2") ("user") ("servus")
    (by decide) (by decide) (by decide)

/-! ## Conversation context rendering facts -/

theorem eq_empty_of_data_eq_nil {s : String} (h : s.data = []) : s = "" := by
  cases s
  simp_all

theorem contextLine_ne_empty (m : ChatMessage) : contextLine m ≠ "" := by
  intro h
  have hd := congrArg String.data h
  simp only [contextLine, String.data_append] at hd
  rcases List.append_eq_nil.mp hd with ⟨hd1, _⟩
  rcases List.append_eq_nil.mp hd1 with ⟨_, hd4⟩
  exact absurd hd4 (by decide)

theorem joinLines_ne_empty (x : String) (xs : List String) (hx : x ≠ "") :
    joinLines (x :: xs) ≠ "" := by
  cases xs with
  | nil => simpa [joinLines] using hx
  | cons y ys =>
    intro h
    have hd := congrArg String.data h
    simp only [joinLines, String.data_append] at hd
    rcases List.append_eq_nil.mp hd with ⟨hd1, _⟩
    rcases List.append_eq_nil.mp hd1 with ⟨hd3, _⟩
    exact hx (eq_empty_of_data_eq_nil hd3)

theorem takeLast_length {α : Type} (n : Nat) (l : List α) :
    (takeLast n l).length = min n l.length := by
  simp [takeLast]

/-- C9: rendering the conversation context from an empty transcript yields
the literal German placeholder rather than the empty string; from a
non-empty transcript it yields the Role: content lines of the last 30
entries joined by newline (never the placeholder, since each line is
non-empty). -/
theorem c9_context_rendering :
    conversationContext [] = "Keine vorherigen Nachrichten" ∧
    ∀ h : List ChatMessage, h ≠ [] →
      conversationContext h = joinLines ((takeLast 30 h).map contextLine) := by
  refine ⟨rfl, ?_⟩
  intro h hne
  unfold conversationContext
  cases hl : (takeLast 30 h).map contextLine with
  | nil =>
    exfalso
    have h0 : (takeLast 30 h).length = 0 := by
      have := congrArg List.length hl
      simpa using this
    rw [takeLast_length] at h0
    have hpos : 0 < h.length := List.length_pos.mpr hne
    omega
  | cons line rest =>
    have hline : line ≠ "" := by
      have hmem : line ∈ (takeLast 30 h).map contextLine := by
        rw [hl]
        simp
      rcases List.mem_map.mp hmem with ⟨m, _, hm⟩
      rw [← hm]
      exact contextLine_ne_empty m
    dsimp only
    rw [if_neg (joinLines_ne_empty line rest hline)]

/-- Witness for C9 at concrete inputs: the empty transcript and a singleton
transcript. -/
theorem c9_context_rendering_witness :
    conversationContext [] = "Keine vorherigen Nachrichten" ∧
    conversationContext
        [{ role := "user", content := "hallo", timestamp := "t",
           source := "chat" }] = "User: hallo" := by
  refine ⟨c9_context_rendering.1, ?_⟩
  rw [c9_context_rendering.2
    [{ role := "user", content := "hallo", timestamp := "t", source := "chat" }]
    (by decide)]
  decide

/-! ## Polling machine lemmas -/

theorem markUserActivity_interval (now : Nat) (s : PollState) :
    (markUserActivity now s).interval = 8000 := by
  unfold markUserActivity
  split_ifs <;> rfl

theorem initPollState_interval (t0 : Nat) :
    (initPollState t0).interval = 15000 := rfl

theorem adjust_emptyPolls (now : Nat) (s : PollState) :
    (adjustPollingFrequency now s).emptyPolls = s.emptyPolls := by
  unfold adjustPollingFrequency pausePolling
  split_ifs <;> rfl

theorem adjust_intervalInv (now : Nat) (s : PollState) (h : intervalInv s) :
    intervalInv (adjustPollingFrequency now s) := by
  unfold adjustPollingFrequency pausePolling tierInterval
  split_ifs <;> first
    | exact h
    | exact ⟨by simp, by simp⟩

theorem adjust_interval_lower (now : Nat) (s : PollState)
    (h : 5000 ≤ s.interval) :
    5000 ≤ (adjustPollingFrequency now s).interval := by
  unfold adjustPollingFrequency pausePolling tierInterval
  split_ifs <;> first
    | exact h
    | simp

theorem afterAdjust_intervalInv (now : Nat) (s1 : PollState)
    (h : intervalInv s1) :
    intervalInv (if (adjustPollingFrequency now s1).paused = true
      then adjustPollingFrequency now s1
      else scheduleNextPoll (adjustPollingFrequency now s1)) := by
  split_ifs <;> exact adjust_intervalInv now s1 h

theorem step_intervalInv (e : PollEvent) (s : PollState) (h : intervalInv s) :
    intervalInv (stepEvent e s) := by
  cases e with
  | userActivity now =>
    refine ⟨?_, ?_⟩ <;> rw [show stepEvent (.userActivity now) s = markUserActivity now s from rfl,
      markUserActivity_interval] <;> decide
  | voiceSet now b =>
    show intervalInv (setVoiceActive now b s)
    unfold setVoiceActive
    split_ifs <;> exact h
  | chatTimeout => exact h
  | pollComplete now o =>
    show intervalInv (checkForNewMessagesComplete now o s)
    unfold checkForNewMessagesComplete
    by_cases hs : s.sessionId = none
    · rw [if_pos hs]
      exact h
    · rw [if_neg hs]
      cases o
      · exact afterAdjust_intervalInv now { s with emptyPolls := 0 } h
      · exact afterAdjust_intervalInv now { s with emptyPolls := s.emptyPolls + 1 } h
      · show intervalInv (if s.paused = true then s else scheduleNextPoll s)
        split_ifs <;> exact h
      · exact afterAdjust_intervalInv now { s with emptyPolls := s.emptyPolls + 2 } h
  | stopPolling => exact h
  | startPolling sid => exact h
  | initPolling cfg =>
    show intervalInv (initializeMessagePolling cfg s).1
    unfold initializeMessagePolling
    cases cfg <;> split_ifs <;> exact h
  | whenReady cfg =>
    show intervalInv (startMessagePollingWhenReady cfg s)
    unfold startMessagePollingWhenReady
    cases cfg
    · exact h
    · split_ifs <;> exact h

/-- C1: over every run of the module — any sequence of markUserActivity,
setVoiceActive, chat-flag timeouts, poll completions (non-empty, empty,
unsuccessful payload, or failed fetch) and the start/stop/init entry points
— the adaptive polling interval stays within [5000, 20000] milliseconds. -/
theorem c1_interval_bounded (t0 : Nat) (evs : List PollEvent) :
    5000 ≤ (runPoll t0 evs).interval ∧ (runPoll t0 evs).interval ≤ 20000 := by
  have key : ∀ (l : List PollEvent) (s : PollState), intervalInv s →
      intervalInv (l.foldl (fun s e => stepEvent e s) s) := by
    intro l
    induction l with
    | nil => intro s h; exact h
    | cons e rest ih =>
      intro s h
      exact ih (stepEvent e s) (step_intervalInv e s h)
  refine key evs (initPollState t0) ⟨?_, ?_⟩ <;>
    rw [initPollState_interval] <;> decide

theorem adjust_paused_timer (now : Nat) (s1 : PollState) (hp : s1.paused = true) :
    (adjustPollingFrequency now s1).paused = true ∧
    (adjustPollingFrequency now s1).timerSet = s1.timerSet := by
  unfold adjustPollingFrequency pausePolling
  split_ifs with h1 h2
  · rw [h2.1] at hp
    exact absurd hp (by decide)
  · exact ⟨hp, rfl⟩
  · exact ⟨hp, rfl⟩
  · exact ⟨hp, rfl⟩

/-- C4 counterexample: at the boundary the claim names — exactly 600,000 ms
since the last activity and exactly 5 consecutive empty polls counting the
one that just completed — the client does NOT pause: the code requires
strictly more than 600,000 ms and strictly more than 5 empty polls. It
stays active and keeps a scheduled poll. -/
theorem c4_counterexample :
    (stepEvent (.pollComplete 600000 .empty)
        { lastActivity := 0, interval := 15000, emptyPolls := 4
          voiceActive := false, chatActive := false, paused := false
          timerSet := true, sessionId := some ("s1") }).paused = false ∧
    (stepEvent (.pollComplete 600000 .empty)
        { lastActivity := 0, interval := 15000, emptyPolls := 4
          voiceActive := false, chatActive := false, paused := false
          timerSet := true, sessionId := some ("s1") }).timerSet = true := by
  decide

/-- C4 amended: when a poll completes empty with no voice or chat flag, the
timer pending, strictly more than 600,000 ms since the last activity and the
post-increment empty-poll counter strictly above 5, the client transitions
to paused and clears the scheduled poll; while paused, no event other than
an activity signal sets a timer or leaves the paused state; markUserActivity
and setVoiceActive(true) unpause and schedule immediately. -/
theorem c4_pause_resume :
    (∀ (s : PollState) (now : Nat) (sid : String),
      s.sessionId = some sid → s.paused = false → s.timerSet = true →
      s.voiceActive = false → s.chatActive = false →
      600000 < now - s.lastActivity → 5 < s.emptyPolls + 1 →
      (stepEvent (.pollComplete now .empty) s).paused = true ∧
      (stepEvent (.pollComplete now .empty) s).timerSet = false) ∧
    (∀ (s : PollState) (e : PollEvent),
      s.paused = true → s.timerSet = false → isActivitySignal e = false →
      (stepEvent e s).paused = true ∧ (stepEvent e s).timerSet = false) ∧
    (∀ (s : PollState) (now : Nat), s.paused = true →
      (stepEvent (.userActivity now) s).paused = false ∧
      (stepEvent (.userActivity now) s).timerSet = true ∧
      (stepEvent (.voiceSet now true) s).paused = false ∧
      (stepEvent (.voiceSet now true) s).timerSet = true) := by
  refine ⟨?_, ?_, ?_⟩
  · intro s now sid hsid hp ht hv hc hta hep
    have hne : ¬s.sessionId = none := by rw [hsid]; simp
    have hadj : adjustPollingFrequency now { s with emptyPolls := s.emptyPolls + 1 } =
        { s with emptyPolls := s.emptyPolls + 1, paused := true, timerSet := false } := by
      unfold adjustPollingFrequency pausePolling
      rw [if_pos ⟨hv, hc, hta, hep⟩, if_pos ⟨hp, ht⟩]
    have hstep : stepEvent (.pollComplete now .empty) s =
        { s with emptyPolls := s.emptyPolls + 1, paused := true, timerSet := false } := by
      show checkForNewMessagesComplete now .empty s = _
      unfold checkForNewMessagesComplete
      rw [if_neg hne]
      show (if (adjustPollingFrequency now { s with emptyPolls := s.emptyPolls + 1 }).paused = true
        then adjustPollingFrequency now { s with emptyPolls := s.emptyPolls + 1 }
        else scheduleNextPoll (adjustPollingFrequency now { s with emptyPolls := s.emptyPolls + 1 })) = _
      rw [hadj, if_pos rfl]
    rw [hstep]
    exact ⟨rfl, rfl⟩
  · intro s e hp ht hact
    cases e with
    | userActivity now => simp [isActivitySignal] at hact
    | voiceSet now b =>
      cases b
      · exact ⟨hp, ht⟩
      · simp [isActivitySignal] at hact
    | chatTimeout => exact ⟨hp, ht⟩
    | pollComplete now o =>
      show (checkForNewMessagesComplete now o s).paused = true ∧
        (checkForNewMessagesComplete now o s).timerSet = false
      unfold checkForNewMessagesComplete
      by_cases hs : s.sessionId = none
      · rw [if_pos hs]
        exact ⟨hp, ht⟩
      · rw [if_neg hs]
        cases o with
        | nonEmpty =>
          have ha := adjust_paused_timer now { s with emptyPolls := 0 } hp
          show ((if (adjustPollingFrequency now { s with emptyPolls := 0 }).paused = true
            then adjustPollingFrequency now { s with emptyPolls := 0 }
            else scheduleNextPoll (adjustPollingFrequency now { s with emptyPolls := 0 })).paused = true ∧ _)
          rw [if_pos ha.1]
          exact ⟨ha.1, ha.2.trans ht⟩
        | empty =>
          have ha := adjust_paused_timer now { s with emptyPolls := s.emptyPolls + 1 } hp
          show ((if (adjustPollingFrequency now { s with emptyPolls := s.emptyPolls + 1 }).paused = true
            then adjustPollingFrequency now { s with emptyPolls := s.emptyPolls + 1 }
            else scheduleNextPoll (adjustPollingFrequency now { s with emptyPolls := s.emptyPolls + 1 })).paused = true ∧ _)
          rw [if_pos ha.1]
          exact ⟨ha.1, ha.2.trans ht⟩
        | badPayload =>
          show ((if s.paused = true then s else scheduleNextPoll s).paused = true ∧ _)
          rw [if_pos hp]
          exact ⟨hp, ht⟩
        | failed =>
          have ha := adjust_paused_timer now { s with emptyPolls := s.emptyPolls + 2 } hp
          show ((if (adjustPollingFrequency now { s with emptyPolls := s.emptyPolls + 2 }).paused = true
            then adjustPollingFrequency now { s with emptyPolls := s.emptyPolls + 2 }
            else scheduleNextPoll (adjustPollingFrequency now { s with emptyPolls := s.emptyPolls + 2 })).paused = true ∧ _)
          rw [if_pos ha.1]
          exact ⟨ha.1, ha.2.trans ht⟩
    | stopPolling => exact ⟨hp, rfl⟩
    | startPolling sid => exact ⟨hp, rfl⟩
    | initPolling cfg =>
      show ((initializeMessagePolling cfg s).1.paused = true ∧
        (initializeMessagePolling cfg s).1.timerSet = false)
      unfold initializeMessagePolling
      cases cfg <;> split_ifs <;> exact ⟨hp, ht⟩
    | whenReady cfg =>
      show ((startMessagePollingWhenReady cfg s).paused = true ∧
        (startMessagePollingWhenReady cfg s).timerSet = false)
      unfold startMessagePollingWhenReady
      cases cfg
      · exact ⟨hp, ht⟩
      · split_ifs <;> exact ⟨hp, ht⟩
  · intro s now hp
    refine ⟨?_, ?_, ?_, ?_⟩
    · show (markUserActivity now s).paused = false
      unfold markUserActivity
      rw [if_pos hp]
    · show (markUserActivity now s).timerSet = true
      unfold markUserActivity
      rw [if_pos hp]
    · show (setVoiceActive now true s).paused = false
      unfold setVoiceActive
      rw [if_pos rfl, if_pos hp]
    · show (setVoiceActive now true s).timerSet = true
      unfold setVoiceActive
      rw [if_pos rfl, if_pos hp]

/-- Witness for the amended C4 theorem at concrete states. -/
theorem c4_pause_resume_witness :
    ((stepEvent (.pollComplete 700000 .empty)
        { lastActivity := 0, interval := 15000, emptyPolls := 9
          voiceActive := false, chatActive := false, paused := false
          timerSet := true, sessionId := some ("s1") }).paused = true ∧
      (stepEvent (.pollComplete 700000 .empty)
        { lastActivity := 0, interval := 15000, emptyPolls := 9
          voiceActive := false, chatActive := false, paused := false
          timerSet := true, sessionId := some ("s1") }).timerSet = false) ∧
    ((stepEvent .chatTimeout
        { lastActivity := 0, interval := 15000, emptyPolls := 9
          voiceActive := false, chatActive := false, paused := true
          timerSet := false, sessionId := some ("s1") }).paused = true ∧
      (stepEvent .chatTimeout
        { lastActivity := 0, interval := 15000, emptyPolls := 9
          voiceActive := false, chatActive := false, paused := true
          timerSet := false, sessionId := some ("s1") }).timerSet = false) ∧
    ((stepEvent (.userActivity 800000)
        { lastActivity := 0, interval := 15000, emptyPolls := 9
          voiceActive := false, chatActive := false, paused := true
          timerSet := false, sessionId := some ("s1") }).paused = false ∧
      (stepEvent (.userActivity 800000)
        { lastActivity := 0, interval := 15000, emptyPolls := 9
          voiceActive := false, chatActive := false, paused := true
          timerSet := false, sessionId := some ("s1") }).timerSet = true ∧
      (stepEvent (.voiceSet 800000 true)
        { lastActivity := 0, interval := 15000, emptyPolls := 9
          voiceActive := false, chatActive := false, paused := true
          timerSet := false, sessionId := some ("s1") }).paused = false ∧
      (stepEvent (.voiceSet 800000 true)
        { lastActivity := 0, interval := 15000, emptyPolls := 9
          voiceActive := false, chatActive := false, paused := true
          timerSet := false, sessionId := some ("s1") }).timerSet = true) := by
  refine ⟨?_, ?_, ?_⟩
  · exact c4_pause_resume.1
      { lastActivity := 0, interval := 15000, emptyPolls := 9
        voiceActive := false, chatActive := false, paused := false
        timerSet := true, sessionId := some ("s1") }
      700000 ("s1") rfl rfl rfl rfl rfl (by decide) (by decide)
  · exact c4_pause_resume.2.1
      { lastActivity := 0, interval := 15000, emptyPolls := 9
        voiceActive := false, chatActive := false, paused := true
        timerSet := false, sessionId := some ("s1") }
      .chatTimeout rfl rfl rfl
  · exact c4_pause_resume.2.2
      { lastActivity := 0, interval := 15000, emptyPolls := 9
        voiceActive := false, chatActive := false, paused := true
        timerSet := false, sessionId := some ("s1") }
      800000 rfl

theorem step_never_schedules (e : PollEvent) (s : PollState)
    (ht : s.timerSet = false) (hp : s.paused = false)
    (he : isPollCompletion e = false) :
    (stepEvent e s).timerSet = false ∧ (stepEvent e s).paused = false := by
  cases e with
  | userActivity now =>
    show (markUserActivity now s).timerSet = false ∧
      (markUserActivity now s).paused = false
    unfold markUserActivity
    rw [if_neg (by simp [hp])]
    exact ⟨ht, hp⟩
  | voiceSet now b =>
    show (setVoiceActive now b s).timerSet = false ∧
      (setVoiceActive now b s).paused = false
    unfold setVoiceActive
    cases b
    · exact ⟨ht, hp⟩
    · rw [if_pos rfl, if_neg (by simp [hp])]
      exact ⟨ht, hp⟩
  | chatTimeout => exact ⟨ht, hp⟩
  | pollComplete now o => simp [isPollCompletion] at he
  | stopPolling => exact ⟨rfl, hp⟩
  | startPolling sid => exact ⟨rfl, hp⟩
  | initPolling cfg =>
    show ((initializeMessagePolling cfg s).1.timerSet = false ∧
      (initializeMessagePolling cfg s).1.paused = false)
    unfold initializeMessagePolling
    cases cfg <;> split_ifs <;> exact ⟨ht, hp⟩
  | whenReady cfg =>
    show ((startMessagePollingWhenReady cfg s).timerSet = false ∧
      (startMessagePollingWhenReady cfg s).paused = false)
    unfold startMessagePollingWhenReady
    cases cfg
    · exact ⟨ht, hp⟩
    · split_ifs <;> exact ⟨ht, hp⟩

/-- C5: startMessagePolling clears any pending poll timer and does nothing
else — the session id is not recorded, no counter or interval is reset, no
initial check runs and no poll is scheduled (everything after its early
return is dead code). Consequently, in any run in which no poll ever
completes — and none can start, since the entry points below never schedule
one — the timer is never set and the machine never pauses: the polling
transport never runs. -/
theorem c5_polling_disabled :
    (∀ (sid : String) (s : PollState),
      startMessagePolling sid s = { s with timerSet := false }) ∧
    (∀ (t0 : Nat) (evs : List PollEvent),
      (∀ e ∈ evs, isPollCompletion e = false) →
      (runPoll t0 evs).timerSet = false ∧ (runPoll t0 evs).paused = false) := by
  refine ⟨fun sid s => rfl, ?_⟩
  intro t0 evs hno
  have key : ∀ (l : List PollEvent) (s : PollState),
      (∀ e ∈ l, isPollCompletion e = false) →
      s.timerSet = false → s.paused = false →
      (l.foldl (fun s e => stepEvent e s) s).timerSet = false ∧
      (l.foldl (fun s e => stepEvent e s) s).paused = false := by
    intro l
    induction l with
    | nil => intro s _ ht hp; exact ⟨ht, hp⟩
    | cons e rest ih =>
      intro s hl ht hp
      have hstep := step_never_schedules e s ht hp (hl e (by simp))
      exact ih (stepEvent e s) (fun x hx => hl x (by simp [hx]))
        hstep.1 hstep.2
  exact key evs (initPollState t0) hno rfl rfl

/-- Witness for C5 at a concrete run exercising every non-poll event. -/
theorem c5_polling_disabled_witness :
    (runPoll 0 [PollEvent.initPolling (some ("s1")),
      PollEvent.startPolling ("s1"), PollEvent.userActivity 5,
      PollEvent.voiceSet 7 true, PollEvent.voiceSet 9 false,
      PollEvent.chatTimeout, PollEvent.stopPolling,
      PollEvent.whenReady none]).timerSet = false ∧
    (runPoll 0 [PollEvent.initPolling (some ("s1")),
      PollEvent.startPolling ("s1"), PollEvent.userActivity 5,
      PollEvent.voiceSet 7 true, PollEvent.voiceSet 9 false,
      PollEvent.chatTimeout, PollEvent.stopPolling,
      PollEvent.whenReady none]).paused = false := by
  exact c5_polling_disabled.2 0
    [PollEvent.initPolling (some ("s1")),
      PollEvent.startPolling ("s1"), PollEvent.userActivity 5,
      PollEvent.voiceSet 7 true, PollEvent.voiceSet 9 false,
      PollEvent.chatTimeout, PollEvent.stopPolling,
      PollEvent.whenReady none]
    (by decide)

/-- C7 counterexample: a failed fetch is not always rescheduled, and its
penalty is +2 in total, not an empty poll plus an extra +2 (which would be
+3). From an active state with 4 consecutive empty polls and 700 s of
inactivity, the failure raises the counter to 6 (not 7), tips the client
over the pause threshold, and no further poll is scheduled. -/
theorem c7_counterexample :
    (stepEvent (.pollComplete 700000 .failed)
        { lastActivity := 0, interval := 15000, emptyPolls := 4
          voiceActive := false, chatActive := false, paused := false
          timerSet := true, sessionId := some ("s1") }).emptyPolls = 6 ∧
    (stepEvent (.pollComplete 700000 .failed)
        { lastActivity := 0, interval := 15000, emptyPolls := 4
          voiceActive := false, chatActive := false, paused := false
          timerSet := true, sessionId := some ("s1") }).paused = true ∧
    (stepEvent (.pollComplete 700000 .failed)
        { lastActivity := 0, interval := 15000, emptyPolls := 4
          voiceActive := false, chatActive := false, paused := false
          timerSet := true, sessionId := some ("s1") }).timerSet = false := by
  decide

/-- C7 amended: a failed fetch is caught (never fatal) and adds exactly 2 to
consecutiveEmptyPolls (an empty poll adds 1); it then runs the same
frequency adjustment as an empty poll, and the next poll is rescheduled —
after the full adaptive interval of at least 5 s, never immediately —
unless the adjustment has just paused polling. -/
theorem c7_failure_backoff (s : PollState) (now : Nat) (sid : String)
    (hsid : s.sessionId = some sid) (hint : 5000 ≤ s.interval) :
    (stepEvent (.pollComplete now .failed) s).emptyPolls = s.emptyPolls + 2 ∧
    ((stepEvent (.pollComplete now .failed) s).paused = false →
      (stepEvent (.pollComplete now .failed) s).timerSet = true ∧
      5000 ≤ (stepEvent (.pollComplete now .failed) s).interval) := by
  have hne : ¬s.sessionId = none := by rw [hsid]; simp
  have hstep : stepEvent (.pollComplete now .failed) s =
      (if (adjustPollingFrequency now { s with emptyPolls := s.emptyPolls + 2 }).paused = true
        then adjustPollingFrequency now { s with emptyPolls := s.emptyPolls + 2 }
        else scheduleNextPoll (adjustPollingFrequency now { s with emptyPolls := s.emptyPolls + 2 })) := by
    show checkForNewMessagesComplete now .failed s = _
    unfold checkForNewMessagesComplete
    rw [if_neg hne]
  rw [hstep]
  split_ifs with hpp
  · refine ⟨?_, ?_⟩
    · rw [adjust_emptyPolls]
    · intro hres
      rw [hres] at hpp
      exact absurd hpp (by decide)
  · refine ⟨?_, ?_⟩
    · show (adjustPollingFrequency now { s with emptyPolls := s.emptyPolls + 2 }).emptyPolls = _
      rw [adjust_emptyPolls]
    · intro _
      exact ⟨rfl, adjust_interval_lower now { s with emptyPolls := s.emptyPolls + 2 } hint⟩

/-- Witness for the amended C7 theorem at a concrete active state. -/
theorem c7_failure_backoff_witness :
    (stepEvent (.pollComplete 1000 .failed)
        { lastActivity := 0, interval := 15000, emptyPolls := 0
          voiceActive := false, chatActive := false, paused := false
          timerSet := true, sessionId := some ("s1") }).emptyPolls = 0 + 2 ∧
    ((stepEvent (.pollComplete 1000 .failed)
        { lastActivity := 0, interval := 15000, emptyPolls := 0
          voiceActive := false, chatActive := false, paused := false
          timerSet := true, sessionId := some ("s1") }).paused = false →
      (stepEvent (.pollComplete 1000 .failed)
        { lastActivity := 0, interval := 15000, emptyPolls := 0
          voiceActive := false, chatActive := false, paused := false
          timerSet := true, sessionId := some ("s1") }).timerSet = true ∧
      5000 ≤ (stepEvent (.pollComplete 1000 .failed)
        { lastActivity := 0, interval := 15000, emptyPolls := 0
          voiceActive := false, chatActive := false, paused := false
          timerSet := true, sessionId := some ("s1") }).interval) := by
  exact c7_failure_backoff
    { lastActivity := 0, interval := 15000, emptyPolls := 0
      voiceActive := false, chatActive := false, paused := false
      timerSet := true, sessionId := some ("s1") }
    1000 ("s1") rfl (by decide)

/-- C8: after the tier rules have chosen an interval (the adjustment did not
pause), more than 25 consecutive empty polls replace the interval by
min(interval * 1.2, 20000) — modelled exactly as interval * 6 / 5, see
adjustPollingFrequency; in particular, in the 15 s tier (600,000 ms since
activity, the single point of that tier not paused at 26 empty polls) with
no flags and 26 consecutive empty polls the computed interval is exactly
18,000 ms and the client is not paused. -/
theorem c8_dampening :
    (∀ (s : PollState) (now : Nat),
      ¬(s.voiceActive = false ∧ s.chatActive = false ∧
          600000 < now - s.lastActivity ∧ 5 < s.emptyPolls) →
      25 < s.emptyPolls →
      (adjustPollingFrequency now s).interval =
        min (tierInterval now s * 6 / 5) 20000) ∧
    ((adjustPollingFrequency 600000
        { lastActivity := 0, interval := 15000, emptyPolls := 26
          voiceActive := false, chatActive := false, paused := false
          timerSet := true, sessionId := some ("s1") }).interval = 18000 ∧
      (adjustPollingFrequency 600000
        { lastActivity := 0, interval := 15000, emptyPolls := 26
          voiceActive := false, chatActive := false, paused := false
          timerSet := true, sessionId := some ("s1") }).paused = false) := by
  refine ⟨?_, by decide, by decide⟩
  intro s now hnp hdamp
  unfold adjustPollingFrequency
  rw [if_neg hnp, if_pos hdamp]

/-- Witness for C8 applying the dampening formula at a concrete state in the
10 s tier. -/
theorem c8_dampening_witness :
    (adjustPollingFrequency 130000
        { lastActivity := 0, interval := 15000, emptyPolls := 26
          voiceActive := false, chatActive := false, paused := false
          timerSet := false, sessionId := none }).interval =
      min (tierInterval 130000
        { lastActivity := 0, interval := 15000, emptyPolls := 26
          voiceActive := false, chatActive := false, paused := false
          timerSet := false, sessionId := none } * 6 / 5) 20000 := by
  exact c8_dampening.1
    { lastActivity := 0, interval := 15000, emptyPolls := 26
      voiceActive := false, chatActive := false, paused := false
      timerSet := false, sessionId := none }
    130000 (by decide) (by decide)

/-! ## Storage fallback selection -/

theorem latestChatKey_mem (keys : List String) (b : String)
    (h : latestChatKey keys = some b) : b ∈ keys := by
  induction keys with
  | nil => simp [latestChatKey] at h
  | cons k ks ih =>
    unfold latestChatKey at h
    cases hk : latestChatKey ks with
    | none =>
      rw [hk] at h
      simp at h
      simp [h]
    | some b2 =>
      rw [hk] at h
      dsimp only at h
      split_ifs at h <;> simp at h
      · simp [h]
      · exact List.mem_cons_of_mem k (ih (h ▸ hk))

theorem latestChatKey_max (keys : List String) (k : String)
    (hk : k ∈ keys)
    (hmax : ∀ k2 ∈ keys, k2 ≠ k →
      (keyTimestamp k2).getD 0 < (keyTimestamp k).getD 0) :
    latestChatKey keys = some k := by
  induction keys with
  | nil => simp at hk
  | cons a ks ih =>
    unfold latestChatKey
    rcases List.mem_cons.mp hk with hak | hkks
    · subst hak
      cases hb : latestChatKey ks with
      | none => rfl
      | some b =>
        have hbmem : b ∈ ks := latestChatKey_mem ks b hb
        dsimp only
        by_cases hbk : b = k
        · subst hbk
          rw [if_pos (Nat.le_refl _)]
        · have := hmax b (by simp [hbmem]) hbk
          rw [if_pos (Nat.le_of_lt this)]
    · by_cases hak : a = k
      · subst hak
        cases hb : latestChatKey ks with
        | none => rfl
        | some b =>
          have hbmem : b ∈ ks := latestChatKey_mem ks b hb
          dsimp only
          by_cases hbk : b = a
          · subst hbk
            rw [if_pos (Nat.le_refl _)]
          · have := hmax b (by simp [hbmem]) hbk
            rw [if_pos (Nat.le_of_lt this)]
      · have hks : latestChatKey ks = some k :=
          ih hkks (fun k2 h2 hne => hmax k2 (by simp [h2]) hne)
        rw [hks]
        dsimp only
        have hlt := hmax a (by simp) hak
        rw [if_neg (by omega)]

/-- C6 counterexample: the fallback adopts the transcript whose key embeds
the largest session-id timestamp, not the most recently written one. Here
the entry under chatHistory_200_b was written at time 1 and the entry under
chatHistory_100_a at time 5; the spec says the latter (most recently
written) is adopted, but the code picks the former. -/
theorem c6_counterexample :
    (loadChatHistoryFromStorage ("zzz") 10
        [(("chatHistory_200_b"),
          [{ role := "assistant", content := "B", timestamp := "tb",
             source := "chat" }], 1),
         (("chatHistory_100_a"),
          [{ role := "assistant", content := "A", timestamp := "ta",
             source := "chat" }], 5)]).1 =
      [{ role := "assistant", content := "B", timestamp := "tb",
         source := "chat" }] ∧
    specMostRecentlyWritten
        [(("chatHistory_200_b"),
          [{ role := "assistant", content := "B", timestamp := "tb",
             source := "chat" }], 1),
         (("chatHistory_100_a"),
          [{ role := "assistant", content := "A", timestamp := "ta",
             source := "chat" }], 5)] =
      some [{ role := "assistant", content := "A", timestamp := "ta",
              source := "chat" }] ∧
    ([{ role := "assistant", content := "B", timestamp := "tb",
        source := "chat" }] : List ChatMessage) ≠
      [{ role := "assistant", content := "A", timestamp := "ta",
         source := "chat" }] := by
  refine ⟨by decide, by decide, by decide⟩

/-- C6 amended: when no transcript exists under the current session key,
every chatHistory key in the store carries a parseable timestamp chunk
(hparse — this is the scope on which the JS sort comparator is consistent
and the sort well defined; with it, getD 0 below is always the actual
parsed value and the NaN totalisation of the model is never relied on), and
the key k parses to the strictly largest timestamp tk, then the adopted
fallback is the transcript stored under k — a proxy for recency; actual
write order is never consulted. -/
theorem c6_fallback_latest_key (storage : Storage) (sid : String) (now : Nat)
    (k : String) (v : List ChatMessage) (tk : Nat)
    (hcur : storageLookup storage ("chatHistory_" ++ sid) = none)
    (hk : k ∈ chatKeys storage)
    (htk : keyTimestamp k = some tk)
    (hparse : ∀ k2 ∈ chatKeys storage, (keyTimestamp k2).isSome = true)
    (hmax : ∀ k2 ∈ chatKeys storage, k2 ≠ k → (keyTimestamp k2).getD 0 < tk)
    (hv : storageLookup storage k = some v) :
    (loadChatHistoryFromStorage sid now storage).1 = v := by
  have hmax0 : ∀ k2 ∈ chatKeys storage, k2 ≠ k →
      (keyTimestamp k2).getD 0 < (keyTimestamp k).getD 0 := by
    intro k2 h2 hne
    rw [htk]
    exact hmax k2 h2 hne
  unfold loadChatHistoryFromStorage
  rw [hcur, latestChatKey_max (chatKeys storage) k hk hmax0]
  dsimp only
  rw [hv]

/-- Witness for the amended C6 theorem on a concrete store. -/
theorem c6_fallback_latest_key_witness :
    (loadChatHistoryFromStorage ("cur") 9
        [(("chatHistory_300_x"),
          [{ role := "user", content := "X", timestamp := "tx",
             source := "chat" }], 7)]).1 =
      [{ role := "user", content := "X", timestamp := "tx",
         source := "chat" }] := by
  exact c6_fallback_latest_key
    [(("chatHistory_300_x"),
      [{ role := "user", content := "X", timestamp := "tx",
         source := "chat" }], 7)]
    ("cur") 9 ("chatHistory_300_x")
    [{ role := "user", content := "X", timestamp := "tx", source := "chat" }]
    300 (by decide) (by decide) (by decide) (by decide) (by decide) (by decide)
